import Mathlib

/-!
Verification of the authentication/token subsystem of goit-pythonweb-hw-12.

Shallow embedding conventions:
- machine time is a Nat counting seconds; "now" is threaded explicitly;
- a JWT on the wire is the inductive Token: either a payload signed with a
  key and algorithm, or an arbitrary non-JWT string (garbled);
- jose's jwt.decode succeeds exactly when the key and algorithm match and
  the exp claim is not in the past (jose rejects when exp < now); every
  token issued by this codec carries an exp claim, so the model gives every
  signed token one;
- raised HTTPException values become Except.error carrying status + detail;
- the database session becomes explicit state passing over List UserRec;
- bcrypt hashing/verification (passlib) is an external primitive, so the
  operations that need it take the hash / verify functions as parameters.
-/

namespace HW12

/-- UserRole from src/database/models.py: enum with values user and admin. -/
inductive Role where
  | user
  | admin
  deriving DecidableEq, Repr

/-- The claim set of a decoded JWT: fields sub, role, type (the kind tag)
and exp, mirroring what the four token creators of AuthService encode. -/
structure Payload where
  sub : Option String
  role : Option Role
  type : Option String
  exp : Nat
  deriving DecidableEq, Repr

/-- A bearer token on the wire: a JWT signed with some key and algorithm,
or any other string (which no decode with signature checking accepts). -/
inductive Token where
  | signed (key : String) (alg : String) (payload : Payload)
  | garbled (raw : String)
  deriving DecidableEq, Repr

/-- settings.SECRET_KEY default from src/conf/config.py. -/
def SECRET_KEY : String := "your-secret-key"

/-- settings.ALGORITHM default from src/conf/config.py. -/
def ALGORITHM : String := "HS256"

/-- settings.ACCESS_TOKEN_EXPIRE_MINUTES default from src/conf/config.py. -/
def ACCESS_TOKEN_EXPIRE_MINUTES : Nat := 30

/-- settings.REFRESH_TOKEN_EXPIRE_DAYS default from src/conf/config.py. -/
def REFRESH_TOKEN_EXPIRE_DAYS : Nat := 7

/-- AuthService.verification_token_expire_hours (src/services/auth.py). -/
def verification_token_expire_hours : Nat := 24

/-- AuthService.reset_token_expire_minutes (src/services/auth.py); set in
the constructor but never read: create_password_reset_token hard-codes a
one hour expiry instead. -/
def reset_token_expire_minutes : Nat := 15

/-- jose jwt.encode with the service's secret key and algorithm. -/
def jwt_encode (p : Payload) : Token :=
  Token.signed SECRET_KEY ALGORITHM p

/-- jose jwt.decode(token, SECRET_KEY, algorithms=[ALGORITHM]): succeeds
iff the token is a JWT signed with that key and algorithm whose exp claim
is not in the past; any failure raises JWTError, modelled as none. -/
def jwt_decode (t : Token) (now : Nat) : Option Payload :=
  match t with
  | Token.signed key alg p =>
      if key = SECRET_KEY ∧ alg = ALGORITHM ∧ now ≤ p.exp then some p else none
  | Token.garbled _ => none

/-- The data dict passed to the token creators at their call sites:
always a sub entry and sometimes a role entry. -/
structure JwtData where
  sub : Option String
  role : Option Role
  deriving DecidableEq, Repr

/-- AuthService.create_access_token: copies data, sets exp from
expires_delta (or the default minutes) and stamps type access. -/
def create_access_token (data : JwtData) (expires_delta : Option Nat) (now : Nat) : Token :=
  let expire := match expires_delta with
    | some d => now + d
    | none => now + ACCESS_TOKEN_EXPIRE_MINUTES * 60
  jwt_encode { sub := data.sub, role := data.role, type := some "access", exp := expire }

/-- AuthService.create_refresh_token: copies data, sets exp from the
refresh-day TTL and stamps type refresh. -/
def create_refresh_token (data : JwtData) (now : Nat) : Token :=
  jwt_encode { sub := data.sub, role := data.role, type := some "refresh",
               exp := now + REFRESH_TOKEN_EXPIRE_DAYS * 24 * 60 * 60 }

/-- AuthService.create_verification_token: requires a truthy sub entry in
data (raising ValueError otherwise, modelled as Except.error), then
encodes sub, a 24 hour exp and type verification. -/
def create_verification_token (data : JwtData) (now : Nat) : Except String Token :=
  match data.sub with
  | none => Except.error "Email is required for verification token"
  | some email =>
      if email = "" then Except.error "Email is required for verification token"
      else Except.ok (jwt_encode { sub := some email, role := none, type := some "verification",
                                   exp := now + verification_token_expire_hours * 60 * 60 })

/-- AuthService.create_password_reset_token: encodes the email as sub with
type password_reset and a hard-coded one hour expiry. -/
def create_password_reset_token (email : String) (now : Nat) : Token :=
  jwt_encode { sub := some email, role := none, type := some "password_reset",
               exp := now + 60 * 60 }

/-- AuthService.verify_token: decode and return the payload, or None on
any JWTError. -/
def verify_token (t : Token) (now : Nat) : Option Payload :=
  jwt_decode t now

/-- AuthService.verify_access_token: decode, then reject unless the type
claim equals access; returns the payload. -/
def verify_access_token (t : Token) (now : Nat) : Option Payload :=
  match jwt_decode t now with
  | none => none
  | some p => if p.type ≠ some "access" then none else some p

/-- AuthService.verify_password_reset_token: decode, then require a sub
claim and type password_reset; returns the email. -/
def verify_password_reset_token (t : Token) (now : Nat) : Option String :=
  match jwt_decode t now with
  | none => none
  | some p =>
      match p.sub with
      | none => none
      | some email => if p.type ≠ some "password_reset" then none else some email

/-- An HTTPException raised to the HTTP boundary: status code and detail. -/
structure HErr where
  status : Nat
  detail : String
  deriving DecidableEq, Repr

/-- The uniform 401 raised by AuthService.get_current_user on every
failure path. -/
def credentials_exception : HErr :=
  { status := 401, detail := "Could not validate credentials" }

/-- AuthService.verify_verification_token: decode (JWTError becomes the
422 invalid-or-expired error), then require type verification (422
otherwise), then a sub claim (422 otherwise); returns the email. -/
def verify_verification_token (t : Token) (now : Nat) : Except HErr String :=
  match jwt_decode t now with
  | none => Except.error { status := 422, detail := "Invalid or expired verification token" }
  | some p =>
      if p.type ≠ some "verification" then
        Except.error { status := 422, detail := "Invalid token type" }
      else
        match p.sub with
        | none => Except.error { status := 422, detail := "Email not found in token" }
        | some email => Except.ok email

/-- A row of the users table (src/database/models.py). The columns are
id, email, hashed_password, full_name, role, refresh_token, is_verified,
created_at, updated_at; the model defines no is_active column even though
its own docstring lists one. -/
structure UserRec where
  id : Nat
  email : String
  hashed_password : String
  full_name : Option String
  role : Role
  refresh_token : Option Token
  is_verified : Bool
  created_at : Nat
  updated_at : Nat
  deriving DecidableEq, Repr

/-- repository.get_user_by_email: SELECT ... WHERE email = e, one row or
none (emails are unique at the storage layer, so first match is faithful). -/
def get_user_by_email (db : List UserRec) (email : String) : Option UserRec :=
  db.find? (fun u => u.email = email)

/-- repository.get_user_by_id: SELECT ... WHERE id = user_id. -/
def get_user_by_id (db : List UserRec) (user_id : Nat) : Option UserRec :=
  db.find? (fun u => u.id = user_id)

/-- repository.create_user: rejects a duplicate email with ValueError,
otherwise inserts a row with the given fields, refresh_token NULL,
is_verified false (column default) and fresh timestamps. The
autoincrement id is modelled as length + 1. -/
def create_user (db : List UserRec) (email : String) (hashed_password : String)
    (full_name : Option String) (role : Role) (now : Nat) :
    Except String (UserRec × List UserRec) :=
  match get_user_by_email db email with
  | some _ => Except.error "Email already registered"
  | none =>
      let u : UserRec :=
        { id := db.length + 1, email := email, hashed_password := hashed_password,
          full_name := full_name, role := role, refresh_token := none,
          is_verified := false, created_at := now, updated_at := now }
      Except.ok (u, db ++ [u])

/-- repository.update_token: sets the user's refresh_token column and
commits; the updated_at column is refreshed by its onupdate hook. -/
def update_token (db : List UserRec) (user : UserRec) (token : Option Token) (now : Nat) :
    List UserRec :=
  db.map (fun r => if r.id = user.id then
    { r with refresh_token := token, updated_at := now } else r)

/-- repository.update_user_verified: None when the id is absent, else
sets is_verified, commits (updated_at refreshed by onupdate) and returns
the refreshed row. -/
def update_user_verified (db : List UserRec) (user_id : Nat) (is_verified : Bool) (now : Nat) :
    Option (UserRec × List UserRec) :=
  match get_user_by_id db user_id with
  | none => none
  | some u =>
      some ({ u with is_verified := is_verified, updated_at := now },
        db.map (fun r => if r.id = user_id then
          { r with is_verified := is_verified, updated_at := now } else r))

/-- AuthService.get_current_user, the authorization gate: decode the
bearer token (any JWTError means the uniform 401), require a sub claim
(else the same 401), look the email up (else the same 401) and return the
user. The type claim of the payload is never inspected. -/
def get_current_user (token : Token) (db : List UserRec) (now : Nat) :
    Except HErr UserRec :=
  match jwt_decode token now with
  | none => Except.error credentials_exception
  | some payload =>
      match payload.sub with
      | none => Except.error credentials_exception
      | some email =>
          match get_user_by_email db email with
          | none => Except.error credentials_exception
          | some user => Except.ok user

/-- AuthService.authenticate_user: None for a missing user or password
mismatch, 403 for a correct password on an unverified user. -/
def authenticate_user (email password : String) (db : List UserRec)
    (verify : String → String → Bool) : Except HErr (Option UserRec) :=
  match get_user_by_email db email with
  | none => Except.ok none
  | some user =>
      if ¬ verify password user.hashed_password then Except.ok none
      else if ¬ user.is_verified then
        Except.error { status := 403, detail := "Email not verified" }
      else Except.ok (some user)

/-- The token pair returned by login and refresh. -/
structure TokenResponse where
  access_token : Token
  refresh_token : Token
  token_type : String
  deriving DecidableEq, Repr

/-- AuthService.create_tokens: access token over sub and role with the
configured minutes as expires_delta, refresh token over sub and role. -/
def create_tokens (user : UserRec) (now : Nat) : TokenResponse :=
  { access_token := create_access_token
      { sub := some user.email, role := some user.role }
      (some (ACCESS_TOKEN_EXPIRE_MINUTES * 60)) now,
    refresh_token := create_refresh_token
      { sub := some user.email, role := some user.role } now,
    token_type := "bearer" }

/-- The UserCreate request schema (src/schemas/init): email, optional
full_name, password, confirm_password, and a role field whose pydantic
default is USER but which the client may set. -/
structure UserCreate where
  email : String
  full_name : Option String
  password : String
  confirm_password : String
  role : Role
  deriving DecidableEq, Repr

/-- UserCreate.validate_passwords_match: raises ValueError on mismatch.
It carries no pydantic validator decorator and no code path in the
repository ever calls it. -/
def validate_passwords_match (u : UserCreate) : Except String Bool :=
  if u.password ≠ u.confirm_password then Except.error "Passwords do not match"
  else Except.ok true

/-- The register route (src/api/auth.py): 409 when the email exists, else
hash the password, insert the row (the body's role field is forwarded
verbatim via model_dump), create a verification token for the mailer and
return the new user. Unreachable ValueError paths surface as 500. -/
def register (body : UserCreate) (db : List UserRec) (hash : String → String) (now : Nat) :
    Except HErr (UserRec × List UserRec × Token) :=
  match get_user_by_email db body.email with
  | some _ => Except.error { status := 409, detail := "Account already exists" }
  | none =>
      let hashed := hash body.password
      match create_user db body.email hashed body.full_name body.role now with
      | Except.error e => Except.error { status := 500, detail := e }
      | Except.ok (new_user, db2) =>
          match create_verification_token { sub := some new_user.email, role := none } now with
          | Except.error e => Except.error { status := 500, detail := e }
          | Except.ok tok => Except.ok (new_user, db2, tok)

/-- The login route (src/api/auth.py): authenticate (403 propagates from
authenticate_user on an unverified user), 401 when it yields no user,
then a dead re-check of is_verified, then create_tokens. No store write
happens anywhere on this path, so the session state is returned as-is. -/
def login (username password : String) (db : List UserRec)
    (verify : String → String → Bool) (now : Nat) :
    Except HErr (TokenResponse × List UserRec) :=
  match authenticate_user username password db verify with
  | Except.error e => Except.error e
  | Except.ok none =>
      Except.error { status := 401, detail := "Incorrect username or password" }
  | Except.ok (some user) =>
      if ¬ user.is_verified then
        Except.error { status := 403, detail := "Email not verified" }
      else Except.ok (create_tokens user now, db)

/-- The refresh route (src/api/auth.py): verifies the presented token
with verify_access_token, whose kind guard demands type access, replying
401 "Invalid refresh token" otherwise; a payload without sub looks up no
row (email IS NULL matches nothing), giving the 401 "User not found";
then issues a fresh access token (sub and role, default TTL) and a fresh
refresh token (sub only), persists the latter with update_token and
returns the pair. -/
def refresh_token (credentials : Token) (db : List UserRec) (now : Nat) :
    Except HErr (TokenResponse × List UserRec) :=
  match verify_access_token credentials now with
  | none => Except.error { status := 401, detail := "Invalid refresh token" }
  | some payload =>
      match payload.sub with
      | none => Except.error { status := 401, detail := "User not found" }
      | some email =>
          match get_user_by_email db email with
          | none => Except.error { status := 401, detail := "User not found" }
          | some user =>
              let access := create_access_token
                { sub := some user.email, role := some user.role } none now
              let refresh := create_refresh_token
                { sub := some user.email, role := none } now
              let db2 := update_token db user (some refresh) now
              Except.ok ({ access_token := access, refresh_token := refresh,
                           token_type := "bearer" }, db2)

/-- The verify_email route (src/api/auth.py): parse the verification
token (422 on failure), 404 when the email is unknown, return the
already-verified message without touching the store when is_verified is
already true, else flip it via update_user_verified (whose None result is
ignored by the route) and return the success message. -/
def verify_email (token : Token) (db : List UserRec) (now : Nat) :
    Except HErr (String × List UserRec) :=
  match verify_verification_token token now with
  | Except.error e => Except.error e
  | Except.ok email =>
      match get_user_by_email db email with
      | none => Except.error { status := 404, detail := "User not found" }
      | some user =>
          if user.is_verified then Except.ok ("Email already verified", db)
          else
            match update_user_verified db user.id true now with
            | none => Except.ok ("Email verified successfully", db)
            | some (_, db2) => Except.ok ("Email verified successfully", db2)

/-- An HTTP response of the password-reset request routes: status code
and message body. -/
structure Resp where
  status : Nat
  message : String
  deriving DecidableEq, Repr

/-- The first /reset-password route (src/api/auth.py lines 217-256), the
password-reset request variant that wins route registration: 404 when
the email has no credential. On the registered branch the route does
await auth_service.create_password_reset_token(...), but that method is
a plain synchronous def returning a str; awaiting a str raises TypeError,
which surfaces to the caller as the 500 Internal Server Error response,
so the route's success return (a mail task and the sent message) is
unreachable. -/
def reset_password (email : String) (db : List UserRec) (_now : Nat) :
    Except HErr Resp :=
  match get_user_by_email db email with
  | none => Except.error { status := 404, detail := "User not found" }
  | some _user => Except.error { status := 500, detail := "Internal Server Error" }

/-- The /request-password-reset route (src/api/auth.py lines 303-331):
always replies with the same generic 200 message; a reset token is
created only when the credential exists (and no mail is ever enqueued -
the send is a TODO). The issued token is returned as the observable
side effect, none when no credential exists. -/
def request_password_reset (email : String) (db : List UserRec) (now : Nat) :
    Resp × Option Token :=
  match get_user_by_email db email with
  | none =>
      ({ status := 200,
         message := "If your email is registered, you will receive a password reset link" }, none)
  | some _user =>
      let token := create_password_reset_token email now
      ({ status := 200,
         message := "If your email is registered, you will receive a password reset link" },
       some token)

/-- Failure modes of AuthService.update_user_status: the 403 for a
non-admin caller, the 404 for an absent target, and the TypeError the
reachable success path always raises. -/
inductive AdminErr where
  | forbidden
  | notFound
  | typeError
  deriving DecidableEq, Repr

/-- AuthService.update_user_status: 403 unless the caller's role is
ADMIN, 404 when the target id is absent; the remaining path executes
repository_users.update_user(db, user_id, user_update), which passes
three positional arguments to a function declared as
update_user(db, user, **kwargs) and therefore raises TypeError before
any mutation (the users table has no is_active column to mutate, and
UserUpdate has no is_active field either). -/
def update_user_status (db : List UserRec) (user_id : Nat) (is_active : Bool)
    (current_user : UserRec) : Except AdminErr (UserRec × List UserRec) :=
  if current_user.role ≠ Role.admin then Except.error AdminErr.forbidden
  else
    match get_user_by_id db user_id with
    | none => Except.error AdminErr.notFound
    | some _user => Except.error AdminErr.typeError

/-- Storage-layer invariant assumed throughout: ids and emails are unique
(the email column is declared unique, the id is the primary key). -/
def store_ok (db : List UserRec) : Prop :=
  db.Pairwise (fun a b => a.id ≠ b.id ∧ a.email ≠ b.email)

/-- A bcrypt-digest stand-in used only to instantiate the hash parameter
of register / login at concrete inputs. -/
def hash0 : String → String := fun p => "bcrypt$" ++ p

/-- The verifier matching hash0, instantiating the verify parameter. -/
def verify0 : String → String → Bool := fun p h => h = hash0 p

/-- A stored, verified user with a previously persisted refresh token. -/
def u_alice : UserRec :=
  { id := 1, email := "alice@example.com", hashed_password := "bcrypt$pw1234",
    full_name := none, role := Role.user,
    refresh_token := some (Token.garbled "old-refresh"),
    is_verified := true, created_at := 0, updated_at := 0 }

/-- A stored admin user. -/
def u_admin : UserRec :=
  { id := 2, email := "admin@example.com", hashed_password := "bcrypt$adminpw",
    full_name := none, role := Role.admin, refresh_token := none,
    is_verified := true, created_at := 0, updated_at := 0 }

/-- Decoding a token right after encoding succeeds while the expiry has
not passed. -/
theorem jwt_decode_encode (p : Payload) (now : Nat) (h : now ≤ p.exp) :
    jwt_decode (jwt_encode p) now = some p := by
  simp [jwt_decode, jwt_encode, h]

/-- With unique emails, lookup by a member's email returns the member. -/
theorem get_user_by_email_of_mem (db : List UserRec) (u : UserRec)
    (hok : store_ok db) (hm : u ∈ db) : get_user_by_email db u.email = some u := by
  induction db with
  | nil => cases hm
  | cons a l ih =>
      rcases List.mem_cons.mp hm with rfl | hm'
      · exact List.find?_cons_of_pos _ (by simp)
      · have hrel := (List.pairwise_cons.mp hok).1 u hm'
        have hok' : store_ok l := (List.pairwise_cons.mp hok).2
        unfold get_user_by_email
        rw [List.find?_cons_of_neg _ (by simp [hrel.2])]
        exact ih hok' hm'

/-- With unique ids, lookup by a member's id returns the member. -/
theorem get_user_by_id_of_mem (db : List UserRec) (u : UserRec)
    (hok : store_ok db) (hm : u ∈ db) : get_user_by_id db u.id = some u := by
  induction db with
  | nil => cases hm
  | cons a l ih =>
      rcases List.mem_cons.mp hm with rfl | hm'
      · exact List.find?_cons_of_pos _ (by simp)
      · have hrel := (List.pairwise_cons.mp hok).1 u hm'
        have hok' : store_ok l := (List.pairwise_cons.mp hok).2
        unfold get_user_by_id
        rw [List.find?_cons_of_neg _ (by simp [hrel.1])]
        exact ih hok' hm'

/-- C8: token round-trip. For every subject s, optional embedded role and
instant now, a token issued by each of the four creators parses, at that
same instant, under the verifier for its kind: the access token under
verify_access_token with subject s and kind access; the refresh token
under the codec's parse (verify_token, the only parser accepting refresh
tokens) with subject s and kind refresh; the verification token under
verify_verification_token yielding s; the password-reset token under
verify_password_reset_token yielding s. -/
theorem c8_token_round_trip (s : String) (r : Option Role) (now : Nat) (hs : s ≠ "") :
    verify_access_token (create_access_token { sub := some s, role := r } none now) now =
      some { sub := some s, role := r, type := some "access",
             exp := now + ACCESS_TOKEN_EXPIRE_MINUTES * 60 } ∧
    verify_token (create_refresh_token { sub := some s, role := r } now) now =
      some { sub := some s, role := r, type := some "refresh",
             exp := now + REFRESH_TOKEN_EXPIRE_DAYS * 24 * 60 * 60 } ∧
    (create_verification_token { sub := some s, role := none } now).toOption.bind
      (fun t => (verify_verification_token t now).toOption) = some s ∧
    verify_password_reset_token (create_password_reset_token s now) now = some s := by
  refine ⟨?_, ?_, ?_, ?_⟩
  · simp [verify_access_token, create_access_token, jwt_decode_encode, Nat.le_add_right]
  · simp [verify_token, create_refresh_token, jwt_decode_encode, Nat.le_add_right]
  · simp [create_verification_token, hs, verify_verification_token,
          jwt_decode_encode, Nat.le_add_right, Except.toOption]
  · simp [verify_password_reset_token, create_password_reset_token,
          jwt_decode_encode, Nat.le_add_right]

/-- Witness for C8 at subject a@x.com, embedded role user, instant 0. -/
theorem c8_token_round_trip_witness :
    verify_access_token
        (create_access_token { sub := some "a@x.com", role := some Role.user } none 0) 0 =
      some { sub := some "a@x.com", role := some Role.user, type := some "access",
             exp := 0 + ACCESS_TOKEN_EXPIRE_MINUTES * 60 } ∧
    verify_token (create_refresh_token { sub := some "a@x.com", role := some Role.user } 0) 0 =
      some { sub := some "a@x.com", role := some Role.user, type := some "refresh",
             exp := 0 + REFRESH_TOKEN_EXPIRE_DAYS * 24 * 60 * 60 } ∧
    (create_verification_token { sub := some "a@x.com", role := none } 0).toOption.bind
      (fun t => (verify_verification_token t 0).toOption) = some "a@x.com" ∧
    verify_password_reset_token (create_password_reset_token "a@x.com" 0) 0 = some "a@x.com" :=
  c8_token_round_trip "a@x.com" (some Role.user) 0 (by decide)

/-- C1 (amended): the authorization gate rejects, with the one uniform
401 credentials exception, every token whose decode fails (garbled,
foreign key or algorithm, expired) or that lacks a sub claim, and every
token whose subject has no credential; but it never inspects the kind
tag, so any well-signed unexpired token carrying the email of a stored
user - of whatever kind - resolves that credential. -/
theorem c1_gate_uniform_401_no_kind_check :
    (∀ (t : Token) (db : List UserRec) (now : Nat),
        (jwt_decode t now).bind Payload.sub = none →
        get_current_user t db now = Except.error credentials_exception) ∧
    (∀ (t : Token) (db : List UserRec) (now : Nat) (p : Payload) (e : String),
        jwt_decode t now = some p → p.sub = some e → get_user_by_email db e = none →
        get_current_user t db now = Except.error credentials_exception) ∧
    (∀ (t : Token) (db : List UserRec) (now : Nat) (p : Payload) (e : String) (u : UserRec),
        jwt_decode t now = some p → p.sub = some e → get_user_by_email db e = some u →
        get_current_user t db now = Except.ok u) := by
  refine ⟨?_, ?_, ?_⟩
  · intro t db now h
    unfold get_current_user
    cases hd : jwt_decode t now with
    | none => rfl
    | some p =>
        rw [hd] at h
        simp at h
        simp [h]
  · intro t db now p e hd hs hu
    simp [get_current_user, hd, hs, hu]
  · intro t db now p e u hd hs hu
    simp [get_current_user, hd, hs, hu]

/-- Witness for C1: a garbled bearer token gets the uniform 401. -/
theorem c1_gate_witness :
    get_current_user (Token.garbled "not-a-jwt") [] 0 = Except.error credentials_exception :=
  c1_gate_uniform_401_no_kind_check.1 (Token.garbled "not-a-jwt") [] 0 rfl

/-- Counterexample to C1 as stated: a freshly issued token of kind
refresh, presented to the gate, succeeds in resolving the stored
credential instead of failing Unauthorized. -/
theorem c1_counterexample_refresh_kind_accepted :
    get_current_user
        (create_refresh_token { sub := some "alice@example.com", role := some Role.user } 0)
        [u_alice] 0 = Except.ok u_alice := rfl

/-- C3 as evaluated on the code: the refresh route passes the presented
token to verify_access_token, so a genuine kind refresh token is
rejected 401, while a kind access token is accepted and rotated. -/
theorem c3_refresh_route_kind_confusion :
    refresh_token
        (create_refresh_token { sub := some "alice@example.com", role := none } 0)
        [u_alice] 0 =
      Except.error { status := 401, detail := "Invalid refresh token" } ∧
    (refresh_token
        (create_access_token { sub := some "alice@example.com", role := some Role.user } none 0)
        [u_alice] 0).toOption.isSome = true :=
  ⟨rfl, rfl⟩

/-- C9 as evaluated on the code: update_user_status does enforce the
admin gate (403) and absence check (404), but its success path always
raises TypeError - repository update_user takes (db, user, **kwargs) and
is called with three positional arguments - so no is_active flag is ever
mutated (the users table defines no such column). -/
theorem c9_update_status_never_mutates :
    update_user_status [u_alice] 1 true u_admin = Except.error AdminErr.typeError ∧
    update_user_status [u_alice] 1 true u_alice = Except.error AdminErr.forbidden ∧
    update_user_status [u_alice] 3 true u_admin = Except.error AdminErr.notFound :=
  ⟨rfl, rfl, rfl⟩

/-- C2 (amended): every successful registration creates a credential
with is_verified false, with the role taken verbatim from the request
body (whose schema default is USER, but which the client may set to
ADMIN), appended to the store. -/
theorem c2_register_unverified_body_role :
    ∀ (body : UserCreate) (db : List UserRec) (hash : String → String) (now : Nat)
      (u : UserRec) (db2 : List UserRec) (tok : Token),
      register body db hash now = Except.ok (u, db2, tok) →
      u.is_verified = false ∧ u.role = body.role ∧ db2 = db ++ [u] := by
  intro body db hash now u db2 tok h
  unfold register at h
  cases he : get_user_by_email db body.email with
  | some w => rw [he] at h; simp at h
  | none =>
      rw [he] at h
      unfold create_user at h
      rw [he] at h
      simp only [] at h
      cases hv : create_verification_token { sub := some body.email, role := none } now with
      | error e => rw [hv] at h; simp at h
      | ok t =>
          rw [hv] at h
          simp only [Except.ok.injEq, Prod.mk.injEq] at h
          obtain ⟨hu, hdb, -⟩ := h
          subst hu
          subst hdb
          exact ⟨rfl, rfl, rfl⟩

/-- Registration request used by the C2 witness. -/
def body_carol : UserCreate :=
  { email := "carol@example.com", full_name := none,
    password := "pw123456", confirm_password := "pw123456", role := Role.user }

/-- The credential the C2 witness registration creates. -/
def u_carol : UserRec :=
  { id := 1, email := "carol@example.com", hashed_password := "bcrypt$pw123456",
    full_name := none, role := Role.user, refresh_token := none,
    is_verified := false, created_at := 0, updated_at := 0 }

/-- The verification token the C2 witness registration emits. -/
def tok_carol : Token :=
  jwt_encode { sub := some "carol@example.com", role := none,
               type := some "verification", exp := 86400 }

/-- Witness for C2: a concrete registration on the empty store. -/
theorem c2_register_witness :
    u_carol.is_verified = false ∧ u_carol.role = body_carol.role ∧
      ([u_carol] : List UserRec) = [] ++ [u_carol] :=
  c2_register_unverified_body_role body_carol [] hash0 0 u_carol [u_carol] tok_carol rfl

/-- Registration request carrying role ADMIN. -/
def body_eve : UserCreate :=
  { email := "eve@example.com", full_name := none,
    password := "pw123456", confirm_password := "pw123456", role := Role.admin }

/-- Counterexample to C2 as stated: a registration input whose role
field is ADMIN produces a credential with ADMIN role. -/
theorem c2_counterexample_admin_registration :
    (register body_eve [] hash0 0).toOption.map (fun r => (r.1.role, r.1.is_verified)) =
      some (Role.admin, false) := rfl

/-- Registration request whose password and confirm_password differ. -/
def body_mallory : UserCreate :=
  { email := "mallory@example.com", full_name := none,
    password := "abcdefgh", confirm_password := "zzzzzzzz", role := Role.user }

/-- C6 as evaluated on the code: a mismatched password/confirm_password
pair is not rejected - the register route creates the credential anyway,
because validate_passwords_match (which would raise) is never invoked;
the Conflict half of the claim does hold: a duplicate email gets 409 and
nothing is created. -/
theorem c6_mismatch_still_registers :
    (register body_mallory [] hash0 0).toOption.map (fun r => ((r.2.1).length, r.1.email)) =
      some (1, "mallory@example.com") ∧
    validate_passwords_match body_mallory = Except.error "Passwords do not match" ∧
    register { body_mallory with email := "alice@example.com" } [u_alice] hash0 0 =
      Except.error { status := 409, detail := "Account already exists" } :=
  ⟨rfl, rfl, rfl⟩

/-- C4 (amended): the request-password-reset route replies with one and
the same generic 200 response whatever the email and store; a reset
token comes into existence exactly when the email has a credential (and
the route never enqueues a mail - its send is left as a TODO). -/
theorem c4_request_password_reset_uniform :
    ∀ (e1 e2 : String) (db : List UserRec) (now1 now2 : Nat),
      (request_password_reset e1 db now1).1 = (request_password_reset e2 db now2).1 ∧
      ((request_password_reset e1 db now1).2.isSome ↔ (get_user_by_email db e1).isSome) := by
  intro e1 e2 db now1 now2
  constructor
  · cases h1 : get_user_by_email db e1 <;> cases h2 : get_user_by_email db e2 <;>
      simp [request_password_reset, h1, h2]
  · cases h1 : get_user_by_email db e1 <;> simp [request_password_reset, h1]

/-- A registered user for the C4 counterexample. -/
def u_real : UserRec :=
  { id := 1, email := "real@x.com", hashed_password := "bcrypt$pw",
    full_name := none, role := Role.user, refresh_token := none,
    is_verified := true, created_at := 0, updated_at := 0 }

/-- Counterexample to C4 as stated: the other password-reset request
route (the first /reset-password handler, also cited by the claim)
answers 404 for an unregistered email and 500 for a registered one (the
TypeError from awaiting the synchronous token creator), so the two
responses differ in status code and neither is the claimed uniform
success. -/
theorem c4_counterexample_reset_password_reveals :
    reset_password "nonexistent@x.com" [u_real] 0 =
      Except.error { status := 404, detail := "User not found" } ∧
    reset_password "real@x.com" [u_real] 0 =
      Except.error { status := 500, detail := "Internal Server Error" } :=
  ⟨rfl, rfl⟩

/-- C5 (amended): every successful login returns the create_tokens pair
of the stored, verified credential - the access token carrying its email
and role - but performs no store write at all: the session state comes
back unchanged, so the previously stored refresh_token value survives
and the freshly issued refresh token is not persisted. -/
theorem c5_login_returns_tokens_without_persisting :
    ∀ (username password : String) (db : List UserRec)
      (verify : String → String → Bool) (now : Nat)
      (toks : TokenResponse) (db2 : List UserRec),
      login username password db verify now = Except.ok (toks, db2) →
      db2 = db ∧ ∃ u, get_user_by_email db username = some u ∧
        u.is_verified = true ∧ toks = create_tokens u now := by
  intro username password db verify now toks db2 h
  unfold login authenticate_user at h
  cases he : get_user_by_email db username with
  | none => rw [he] at h; simp at h
  | some u =>
      rw [he] at h
      by_cases hv : verify password u.hashed_password
      · by_cases hver : u.is_verified
        · simp [hv, hver] at h
          obtain ⟨ht, hdb⟩ := h
          exact ⟨hdb.symm, u, rfl, hver, ht.symm⟩
        · simp [hv, hver] at h
      · simp [hv] at h

/-- Witness for C5: a concrete successful login. -/
theorem c5_login_witness :
    ([u_alice] : List UserRec) = [u_alice] ∧ ∃ u,
      get_user_by_email [u_alice] "alice@example.com" = some u ∧
      u.is_verified = true ∧ create_tokens u_alice 0 = create_tokens u 0 :=
  c5_login_returns_tokens_without_persisting "alice@example.com" "pw1234" [u_alice]
    verify0 0 (create_tokens u_alice 0) [u_alice] rfl

/-- Counterexample to C5 as stated: after this successful login the
store still holds the old refresh token, not the freshly issued one. -/
theorem c5_counterexample_refresh_not_stored :
    (login "alice@example.com" "pw1234" [u_alice] verify0 0).toOption.map Prod.snd =
      some [u_alice] ∧
    u_alice.refresh_token = some (Token.garbled "old-refresh") ∧
    (create_tokens u_alice 0).refresh_token ≠ Token.garbled "old-refresh" := by
  refine ⟨rfl, rfl, ?_⟩
  decide

/-- Looking an email up in the store after update_user_verified's map
finds the member's updated row (the map preserves every email). -/
theorem get_user_by_email_after_update (db : List UserRec) (u : UserRec)
    (v : Bool) (now : Nat) (hok : store_ok db) (hm : u ∈ db) :
    get_user_by_email
        (db.map (fun r => if r.id = u.id then
          { r with is_verified := v, updated_at := now } else r)) u.email =
      some { u with is_verified := v, updated_at := now } := by
  induction db with
  | nil => cases hm
  | cons a l ih =>
      rcases List.mem_cons.mp hm with rfl | hm'
      · unfold get_user_by_email
        rw [List.map_cons]
        simp only [if_pos rfl]
        exact List.find?_cons_of_pos _ (by simp)
      · have hrel := (List.pairwise_cons.mp hok).1 u hm'
        have hok' : store_ok l := (List.pairwise_cons.mp hok).2
        unfold get_user_by_email
        rw [List.map_cons, if_neg hrel.1]
        rw [List.find?_cons_of_neg _ (by simp [hrel.2])]
        exact ih hok' hm'

/-- C7: email verification is idempotent. Presenting a well-signed,
unexpired verification token for a stored credential: when the
credential is already verified the route answers the already-verified
success message and leaves the store untouched (so is_verified stays
true); when it is not yet verified the route answers the success message
and the credential's is_verified becomes true. -/
theorem c7_verify_email_idempotent :
    ∀ (db : List UserRec) (u : UserRec) (p : Payload) (now : Nat),
      store_ok db → u ∈ db → p.type = some "verification" →
      p.sub = some u.email → now ≤ p.exp →
      (u.is_verified = true →
        verify_email (Token.signed SECRET_KEY ALGORITHM p) db now =
          Except.ok ("Email already verified", db)) ∧
      (u.is_verified = false →
        ∃ db2, verify_email (Token.signed SECRET_KEY ALGORITHM p) db now =
            Except.ok ("Email verified successfully", db2) ∧
          get_user_by_email db2 u.email =
            some { u with is_verified := true, updated_at := now }) := by
  intro db u p now hok hm htype hsub hexp
  have hdec : jwt_decode (Token.signed SECRET_KEY ALGORITHM p) now = some p := by
    simp [jwt_decode, hexp]
  have hver : verify_verification_token (Token.signed SECRET_KEY ALGORITHM p) now =
      Except.ok u.email := by
    simp [verify_verification_token, hdec, htype, hsub]
  have hfind : get_user_by_email db u.email = some u :=
    get_user_by_email_of_mem db u hok hm
  constructor
  · intro hv
    simp [verify_email, hver, hfind, hv]
  · intro hv
    refine ⟨db.map (fun r => if r.id = u.id then
      { r with is_verified := true, updated_at := now } else r), ?_, ?_⟩
    · have hid : get_user_by_id db u.id = some u := get_user_by_id_of_mem db u hok hm
      simp [verify_email, hver, hfind, hv, update_user_verified, hid]
    · exact get_user_by_email_after_update db u true now hok hm

/-- An unverified stored user for the C7 and C10 witnesses. -/
def u_bob : UserRec :=
  { id := 1, email := "bob@example.com", hashed_password := "bcrypt$pw",
    full_name := none, role := Role.user, refresh_token := none,
    is_verified := false, created_at := 0, updated_at := 0 }

/-- The verification-token payload for alice used by the C7 witness. -/
def p_alice_ver : Payload :=
  { sub := some "alice@example.com", role := none,
    type := some "verification", exp := 100 }

/-- Witness for C7: verifying the already-verified alice returns the
already-verified success message and the unchanged store. -/
theorem c7_verify_email_witness :
    verify_email (Token.signed SECRET_KEY ALGORITHM p_alice_ver) [u_alice] 0 =
      Except.ok ("Email already verified", [u_alice]) :=
  (c7_verify_email_idempotent [u_alice] u_alice p_alice_ver 0
    (by simp [store_ok]) (by simp) rfl rfl (by decide)).1 rfl

/-- C10: frame property. A successful run of the verify_email route
maps the store to a store of the same length in which there is one
target id such that every record whose id differs from it is entirely
unchanged (is_verified and updated_at included), and every record -
target included - keeps its id, email, hashed_password, full_name,
role, refresh_token and created_at, so only the target's is_verified
(and its onupdate-refreshed updated_at) can change, and a true
is_verified never becomes false. -/
theorem c10_verify_email_frame :
    ∀ (tok : Token) (db db2 : List UserRec) (now : Nat) (msg : String),
      verify_email tok db now = Except.ok (msg, db2) →
      db2.length = db.length ∧
      ∃ (uid : Nat), ∀ (i : Nat) (h : i < db.length) (h2 : i < db2.length),
        ((db.get ⟨i, h⟩).id ≠ uid → db2.get ⟨i, h2⟩ = db.get ⟨i, h⟩) ∧
        (db2.get ⟨i, h2⟩).id = (db.get ⟨i, h⟩).id ∧
        (db2.get ⟨i, h2⟩).email = (db.get ⟨i, h⟩).email ∧
        (db2.get ⟨i, h2⟩).hashed_password = (db.get ⟨i, h⟩).hashed_password ∧
        (db2.get ⟨i, h2⟩).full_name = (db.get ⟨i, h⟩).full_name ∧
        (db2.get ⟨i, h2⟩).role = (db.get ⟨i, h⟩).role ∧
        (db2.get ⟨i, h2⟩).refresh_token = (db.get ⟨i, h⟩).refresh_token ∧
        (db2.get ⟨i, h2⟩).created_at = (db.get ⟨i, h⟩).created_at ∧
        ((db.get ⟨i, h⟩).is_verified = true → (db2.get ⟨i, h2⟩).is_verified = true) := by
  intro tok db db2 now msg h
  have hsame : db2 = db →
      db2.length = db.length ∧
      ∃ (uid : Nat), ∀ (i : Nat) (h : i < db.length) (h2 : i < db2.length),
        ((db.get ⟨i, h⟩).id ≠ uid → db2.get ⟨i, h2⟩ = db.get ⟨i, h⟩) ∧
        (db2.get ⟨i, h2⟩).id = (db.get ⟨i, h⟩).id ∧
        (db2.get ⟨i, h2⟩).email = (db.get ⟨i, h⟩).email ∧
        (db2.get ⟨i, h2⟩).hashed_password = (db.get ⟨i, h⟩).hashed_password ∧
        (db2.get ⟨i, h2⟩).full_name = (db.get ⟨i, h⟩).full_name ∧
        (db2.get ⟨i, h2⟩).role = (db.get ⟨i, h⟩).role ∧
        (db2.get ⟨i, h2⟩).refresh_token = (db.get ⟨i, h⟩).refresh_token ∧
        (db2.get ⟨i, h2⟩).created_at = (db.get ⟨i, h⟩).created_at ∧
        ((db.get ⟨i, h⟩).is_verified = true → (db2.get ⟨i, h2⟩).is_verified = true) := by
    intro he
    subst he
    exact ⟨rfl, 0, fun i h h2 =>
      ⟨fun _ => rfl, rfl, rfl, rfl, rfl, rfl, rfl, rfl, fun hv => hv⟩⟩
  cases hv : verify_verification_token tok now with
  | error e => simp [verify_email, hv] at h
  | ok email =>
      cases hu : get_user_by_email db email with
      | none => simp [verify_email, hv, hu] at h
      | some user =>
          by_cases hver : user.is_verified
          · simp [verify_email, hv, hu, hver] at h
            exact hsame h.2.symm
          · cases hid : get_user_by_id db user.id with
            | none =>
                simp [verify_email, hv, hu, hver, update_user_verified, hid] at h
                exact hsame h.2.symm
            | some w =>
                simp [verify_email, hv, hu, hver, update_user_verified, hid] at h
                obtain ⟨-, hdb⟩ := h
                subst hdb
                refine ⟨by simp, user.id, ?_⟩
                intro i h h2
                have hget : (db.map (fun r => if r.id = user.id then
                    { r with is_verified := true, updated_at := now } else r)).get ⟨i, h2⟩ =
                    (fun r => if r.id = user.id then
                      { r with is_verified := true, updated_at := now } else r)
                      (db.get ⟨i, h⟩) := by
                  simp [List.get_eq_getElem, List.getElem_map]
                rw [hget]
                by_cases hc : (db.get ⟨i, h⟩).id = user.id
                · refine ⟨fun hne => absurd hc hne, ?_⟩
                  simp only [List.get_eq_getElem] at hc
                  simp [hc]
                · have hunch : (fun r => if r.id = user.id then
                      { r with is_verified := true, updated_at := now } else r)
                      (db.get ⟨i, h⟩) = db.get ⟨i, h⟩ := by
                    simp only [if_neg hc]
                  rw [hunch]
                  exact ⟨fun _ => rfl, rfl, rfl, rfl, rfl, rfl, rfl, rfl, fun hv => hv⟩

/-- The verification token for bob used by the C10 witness. -/
def tok_bob : Token :=
  Token.signed SECRET_KEY ALGORITHM
    { sub := some "bob@example.com", role := none,
      type := some "verification", exp := 50 }

/-- Witness for C10: a concrete successful verification run preserves
the store's length. -/
theorem c10_verify_email_frame_witness :
    ([{ u_bob with is_verified := true, updated_at := 0 }] : List UserRec).length =
      ([u_bob] : List UserRec).length :=
  (c10_verify_email_frame tok_bob [u_bob]
    [{ u_bob with is_verified := true, updated_at := 0 }] 0
    "Email verified successfully" rfl).1
